import Mathlib

/-!
Shallow embedding of the TechnoBackend request-validation and deduplication
pipeline (`src/app.py`).

Python values appearing in request payloads are modelled by `PyVal` (strings
and lists of strings).  A JSON payload is an association list from field name
to `PyVal`.  The in-memory dedup map `recent_submissions` is an association
list from key to timestamp; timestamps are integers (seconds).  Python
operations that can raise (`.lower()` / `.strip()` on a list) are modelled in
`Except String`, and the endpoint's `try/except` boundary catches the error
into a 500 response, mirroring the Flask handlers.

The SMTP collaborator is abstracted by a parameter `mail : Option String`:
`none` means the send succeeded, `some e` means it failed with error text `e`
(the Python helpers return `(True, ...)` or `(False, str(e))`).
-/

/-- A Python value occurring in a request payload: a string or a list of strings. -/
inductive PyVal where
  | str : String → PyVal
  | list : List String → PyVal
deriving DecidableEq, Repr

/-- Python truthiness for payload values: empty string and empty list are falsy. -/
def pyTruthy : PyVal → Bool
  | .str s => s ≠ ""
  | .list xs => xs ≠ []

/-- A decoded JSON payload: a mapping from field name to value. -/
abbrev Payload := List (String × PyVal)

/-- `data.get(k)`: look up a key in the payload, `none` when absent. -/
def dictGet (d : Payload) (k : String) : Option PyVal :=
  List.lookup k d

/-- `data.get(k, default)`. -/
def dictGetD (d : Payload) (k : String) (v : PyVal) : PyVal :=
  (dictGet d k).getD v

/-- Split a character list at every occurrence of `c`, Python
`str.split(sep)` semantics (never returns the empty list). -/
def splitChars (c : Char) : List Char → List (List Char)
  | [] => [[]]
  | x :: xs =>
    match splitChars c xs with
    | [] => [[]]
    | y :: ys => if x = c then [] :: y :: ys else (x :: y) :: ys

/-- `s.split(c)` for a single-character separator. -/
def pySplitOn (s : String) (c : Char) : List String :=
  (splitChars c s.data).map String.mk

/-- `c in s` for a single character. -/
def strContains (s : String) (c : Char) : Bool :=
  s.data.contains c

/-- `s.lower()`. -/
def strLower (s : String) : String :=
  String.mk (s.data.map Char.toLower)

/-- `s.strip()`: remove leading and trailing whitespace. -/
def strTrimPy (s : String) : String :=
  String.mk (((s.data.dropWhile Char.isWhitespace).reverse.dropWhile Char.isWhitespace).reverse)

/-- `v.lower()`: lower-case a string; raises `AttributeError` on a list. -/
def pyLower : PyVal → Except String String
  | .str s => .ok (strLower s)
  | .list _ => .error "'list' object has no attribute 'lower'"

/-- `v.strip()`: strip a string; raises `AttributeError` on a list. -/
def pyStrip : PyVal → Except String String
  | .str s => .ok (strTrimPy s)
  | .list _ => .error "'list' object has no attribute 'strip'"

/-- `f"{v}"`: Python string formatting of a payload value. -/
def pyStrFmt : PyVal → String
  | .str s => s
  | .list xs => "[" ++ String.intercalate ", " (xs.map (fun s => "'" ++ s ++ "'")) ++ "]"

/-- `len(v)` for a string or list value. -/
def pyLen : PyVal → Nat
  | .str s => s.length
  | .list xs => xs.length

/-- `xs[-1]` for a non-empty list of strings (`""` on the empty list,
which `String.splitOn` never produces). -/
def pyLast : List String → String
  | [] => ""
  | [x] => x
  | _ :: x :: rest => pyLast (x :: rest)

/-- Python `str.capitalize()`: first character upper-cased, the rest lower-cased. -/
def pyCapitalize (s : String) : String :=
  match s.data with
  | [] => ""
  | c :: rest => String.mk (c.toUpper :: rest.map Char.toLower)

/-- The in-memory dedup map `recent_submissions`: key → timestamp of last acceptance. -/
abbrev SubMap := List (String × Int)

/-- Dict lookup in the dedup map. -/
def mapLookup : SubMap → String → Option Int
  | [], _ => none
  | (k', v') :: rest, k => if k' = k then some v' else mapLookup rest k

/-- Dict assignment `m[k] = v`: update in place when the key exists, append otherwise. -/
def mapSet : SubMap → String → Int → SubMap
  | [], k, v => [(k, v)]
  | (k', v') :: rest, k, v =>
      if k' = k then (k, v) :: rest else (k', v') :: mapSet rest k v

/-- `SUBMISSION_COOLDOWN` (seconds). -/
def SUBMISSION_COOLDOWN : Int := 30

/-- `create_submission_key`: composite key from lower-cased email, category and
the count of selected PDFs.  Raises when the email value is a list. -/
def create_submission_key (data : Payload) : Except String String :=
  match pyLower (dictGetD data "email" (.str "")) with
  | .error e => .error e
  | .ok e =>
      .ok (e ++ "_" ++ pyStrFmt (dictGetD data "category" (.str ""))
             ++ "_" ++ toString (pyLen (dictGetD data "selectedPdfs" (.list []))))

/-- `is_duplicate_submission`, with the current time and the map passed
explicitly: returns the duplicate flag and the updated map. -/
def is_duplicate_submission (data : Payload) (current_time : Int) (m : SubMap) :
    Except String (Bool × SubMap) :=
  match create_submission_key data with
  | .error e => .error e
  | .ok key =>
    if (match mapLookup m key with
        | some last_submission => decide (current_time - last_submission < SUBMISSION_COOLDOWN)
        | none => false)
    then .ok (true, m)
    else .ok (false,
      mapSet (m.filter fun kv => decide (¬ current_time - kv.2 > SUBMISSION_COOLDOWN))
        key current_time)

/-- `is_valid_email`: non-empty, contains `@`, and the part after the last `@`
contains `.`. -/
def is_valid_email (email : String) : Bool :=
  if email = "" || !strContains email '@' || !strContains (pyLast (pySplitOn email '@')) '.' then
    false
  else
    true

/-- An HTTP JSON response: status code plus the `{success, message}` body. -/
structure Response where
  status : Nat
  success : Bool
  message : String
deriving DecidableEq, Repr

/-- Result of one `request_downloads` invocation: the response, the dedup map
after the call, and whether the mail collaborator was invoked. -/
structure DownloadsResult where
  resp : Response
  map : SubMap
  mailCalled : Bool
deriving DecidableEq, Repr

/-- Required fields of `/api/downloads/request`, in source order. -/
def required_fields_downloads : List String :=
  ["firstName", "lastName", "email", "phone", "selectedPdfs", "category"]

/-- The `missing_fields` accumulation loop of `request_downloads`: every
required field absent from the payload or with a falsy value, in order. -/
def missingFields (data : Payload) : List String :=
  required_fields_downloads.filter (fun f =>
    match dictGet data f with
    | none => true
    | some v => !pyTruthy v)

/-- The `selectedPdfs` check: present, a list, and non-empty. -/
def selectedPdfsOk (data : Payload) : Bool :=
  match dictGet data "selectedPdfs" with
  | some (.list xs) => xs.length ≠ 0
  | _ => false

/-- `request_downloads`: the `/api/downloads/request` handler with time, map
and mail outcome passed explicitly.  Branches in source order: duplicate
check, email validity, required fields, selectedPdfs shape, mail. -/
def request_downloads (data : Payload) (t : Int) (m : SubMap) (mail : Option String) :
    DownloadsResult :=
  match is_duplicate_submission data t m with
  | .error e =>
      ⟨⟨500, false, "An unexpected error occurred: " ++ e⟩, m, false⟩
  | .ok (dup, m') =>
    if dup then
      ⟨⟨429, false, "Request already submitted recently. Please wait before submitting again."⟩,
        m', false⟩
    else
      match pyStrip (dictGetD data "email" (.str "")) with
      | .error e =>
          ⟨⟨500, false, "An unexpected error occurred: " ++ e⟩, m', false⟩
      | .ok user_email =>
        if user_email = "" || !is_valid_email user_email then
          ⟨⟨400, false, "Please enter a valid email address."⟩, m', false⟩
        else if !(missingFields data).isEmpty then
          ⟨⟨400, false,
            "Missing required fields: " ++ String.intercalate ", " (missingFields data)⟩,
            m', false⟩
        else if !selectedPdfsOk data then
          ⟨⟨400, false, "Please select at least one PDF document."⟩, m', false⟩
        else
          match mail with
          | some err =>
              ⟨⟨500, false, "Failed to process your request: " ++ err⟩, m', true⟩
          | none =>
              ⟨⟨200, true,
                "Thank you! Your request has been received and will be processed shortly."⟩,
                m', true⟩

/-- Required fields of `/api/contact`, in source order. -/
def required_fields_contact : List String := ["name", "email", "message"]

/-- `not data.get(field)`: the field is absent or has a falsy value. -/
def fieldTruthy (data : Payload) (f : String) : Bool :=
  match dictGet data f with
  | none => false
  | some v => pyTruthy v

/-- `contact`: the `/api/contact` handler.  Returns the response and whether
the mail collaborator was invoked. -/
def contact (data : Payload) (mail : Option String) : Response × Bool :=
  match required_fields_contact.find? (fun f => !fieldTruthy data f) with
  | some f => (⟨400, false, pyCapitalize f ++ " is required."⟩, false)
  | none =>
    match mail with
    | none => (⟨200, true, "Thank you for your message! We will get back to you soon."⟩, true)
    | some e => (⟨500, false, "Failed to send message: " ++ e⟩, true)

/-- The `/api/apply` multipart request: text form fields plus the filename of
the uploaded resume file, when the files dict has a `resume` entry. -/
structure ApplyRequest where
  form : List (String × String)
  filesResume : Option String
deriving DecidableEq, Repr

/-- `'resume' in request.files or 'resume' in request.form`. -/
def hasResumeKey (req : ApplyRequest) : Bool :=
  req.filesResume.isSome || (List.lookup "resume" req.form).isSome

/-- Required fields of `/api/apply`, in source order. -/
def required_fields_apply : List String :=
  ["firstName", "lastName", "email", "phone", "jobTitle"]

/-- `allowed_extensions` for the resume file. -/
def allowed_extensions : List String := ["pdf", "doc", "docx"]

/-- The resume file-type check: the filename contains a `.` and the part after
the last `.`, lower-cased, is an allowed extension. -/
def resumeExtensionOk (filename : String) : Bool :=
  strContains filename '.' &&
    allowed_extensions.contains (strLower (pyLast (pySplitOn filename '.')))

/-- `apply_job`: the `/api/apply` handler.  Branches in source order: resume
key presence, required fields, file-type check, mail. -/
def apply_job (req : ApplyRequest) (mail : Option String) : Response :=
  if !hasResumeKey req then
    ⟨400, false, "No resume file provided"⟩
  else
    match required_fields_apply.find? (fun f => (List.lookup f req.form).getD "" = "") with
    | some f => ⟨400, false, pyCapitalize f ++ " is required."⟩
    | none =>
      let mailResp : Response :=
        match mail with
        | none =>
            ⟨200, true,
              "Thank you for your application! We will review your details and get back to you soon."⟩
        | some e => ⟨500, false, "Failed to submit application: " ++ e⟩
      match req.filesResume with
      | some filename =>
        if filename ≠ "" then
          if !resumeExtensionOk filename then
            ⟨400, false, "Invalid file type. Allowed types: PDF, DOC, DOCX"⟩
          else
            mailResp
        else
          mailResp
      | none => mailResp

/-- The email step of `request_downloads` in isolation: `data.get('email','')`
stripped is non-empty and passes `is_valid_email`.  `false` when stripping
raises. -/
def emailCheckOk (data : Payload) : Bool :=
  match pyStrip (dictGetD data "email" (.str "")) with
  | .error _ => false
  | .ok user_email => !(user_email = "" || !is_valid_email user_email)

/-- All validation steps of `request_downloads` (everything between the
duplicate check and the mail hand-off) pass. -/
def validationOk (data : Payload) : Bool :=
  emailCheckOk data && (missingFields data).isEmpty && selectedPdfsOk data

/-- A well-formed `/api/downloads/request` payload used as a running example
(the spec's own scenario input). -/
def sampleDownload : Payload :=
  [("firstName", .str "A"), ("lastName", .str "B"), ("email", .str "a@b.com"),
   ("phone", .str "1"), ("category", .str "x"), ("selectedPdfs", .list ["kiosk1"])]

/-! ## Helper lemmas about the dedup map -/

theorem mapLookup_mapSet_self (m : SubMap) (k : String) (v : Int) :
    mapLookup (mapSet m k v) k = some v := by
  induction m with
  | nil => simp [mapSet, mapLookup]
  | cons hd tl ih =>
    obtain ⟨k', v'⟩ := hd
    by_cases h : k' = k
    · simp [mapSet, h, mapLookup]
    · simp [mapSet, h, mapLookup, ih]

theorem mem_mapSet {m : SubMap} {k : String} {v : Int} {a : String × Int}
    (h : a ∈ mapSet m k v) : a = (k, v) ∨ a ∈ m := by
  induction m with
  | nil => simp [mapSet] at h; simp [h]
  | cons hd tl ih =>
    obtain ⟨k', v'⟩ := hd
    by_cases hk : k' = k
    · simp [mapSet, hk] at h
      rcases h with h | h
      · exact Or.inl (by simp [h])
      · exact Or.inr (by simp [h])
    · simp [mapSet, hk] at h
      rcases h with h | h
      · exact Or.inr (by simp [h])
      · rcases ih h with h' | h'
        · exact Or.inl h'
        · exact Or.inr (by simp [h'])

/-! ## Inversion and evaluation lemmas for `is_duplicate_submission` -/

theorem is_dup_eq_of_error {data : Payload} {t : Int} {m : SubMap} {e : String}
    (hk : create_submission_key data = Except.error e) :
    is_duplicate_submission data t m = Except.error e := by
  unfold is_duplicate_submission
  rw [hk]

theorem is_dup_eq_of_key {data : Payload} {t : Int} {m : SubMap} {k : String}
    (hk : create_submission_key data = Except.ok k) :
    is_duplicate_submission data t m =
      if (match mapLookup m k with
          | some last_submission => decide (t - last_submission < SUBMISSION_COOLDOWN)
          | none => false)
      then Except.ok (true, m)
      else Except.ok (false,
        mapSet (m.filter fun kv => decide (¬ t - kv.2 > SUBMISSION_COOLDOWN)) k t) := by
  unfold is_duplicate_submission
  rw [hk]

theorem is_dup_true_inv {data : Payload} {t : Int} {m m' : SubMap}
    (h : is_duplicate_submission data t m = Except.ok (true, m')) : m' = m := by
  cases hk : create_submission_key data with
  | error e =>
    rw [is_dup_eq_of_error hk] at h
    exact absurd h (by simp)
  | ok key =>
    rw [is_dup_eq_of_key hk] at h
    split at h
    · exact (congrArg Prod.snd (Except.ok.inj h)).symm
    · exact absurd (congrArg Prod.fst (Except.ok.inj h)) (by simp)

theorem is_dup_false_inv {data : Payload} {t : Int} {m m' : SubMap}
    (h : is_duplicate_submission data t m = Except.ok (false, m')) :
    ∃ k, create_submission_key data = Except.ok k ∧
      m' = mapSet (m.filter fun kv => decide (¬ t - kv.2 > SUBMISSION_COOLDOWN)) k t := by
  cases hk : create_submission_key data with
  | error e =>
    rw [is_dup_eq_of_error hk] at h
    exact absurd h (by simp)
  | ok key =>
    rw [is_dup_eq_of_key hk] at h
    split at h
    · exact absurd (congrArg Prod.fst (Except.ok.inj h)) (by simp)
    · exact ⟨key, rfl, (congrArg Prod.snd (Except.ok.inj h)).symm⟩

theorem is_dup_of_recent {data : Payload} {t : Int} {m : SubMap} {k : String} {last : Int}
    (hk : create_submission_key data = Except.ok k)
    (hl : mapLookup m k = some last) (hrec : t - last < SUBMISSION_COOLDOWN) :
    is_duplicate_submission data t m = Except.ok (true, m) := by
  rw [is_dup_eq_of_key hk, hl]
  simp [hrec]

theorem is_dup_of_old {data : Payload} {t : Int} {m : SubMap} {k : String} {last : Int}
    (hk : create_submission_key data = Except.ok k)
    (hl : mapLookup m k = some last) (hold : ¬ t - last < SUBMISSION_COOLDOWN) :
    is_duplicate_submission data t m =
      Except.ok (false,
        mapSet (m.filter fun kv => decide (¬ t - kv.2 > SUBMISSION_COOLDOWN)) k t) := by
  rw [is_dup_eq_of_key hk, hl]
  simp [hold]

theorem is_dup_of_none {data : Payload} {t : Int} {m : SubMap} {k : String}
    (hk : create_submission_key data = Except.ok k)
    (hl : mapLookup m k = none) :
    is_duplicate_submission data t m =
      Except.ok (false,
        mapSet (m.filter fun kv => decide (¬ t - kv.2 > SUBMISSION_COOLDOWN)) k t) := by
  rw [is_dup_eq_of_key hk, hl]
  rfl

theorem request_downloads_eq_of_dup {data : Payload} {t : Int} {m m' : SubMap}
    {mail : Option String}
    (hdup : is_duplicate_submission data t m = Except.ok (true, m')) :
    request_downloads data t m mail =
      ⟨⟨429, false, "Request already submitted recently. Please wait before submitting again."⟩,
        m', false⟩ := by
  unfold request_downloads
  rw [hdup]
  rfl

theorem request_downloads_eq_of_error {data : Payload} {t : Int} {m : SubMap}
    {mail : Option String} {e : String}
    (he : is_duplicate_submission data t m = Except.error e) :
    request_downloads data t m mail =
      ⟨⟨500, false, "An unexpected error occurred: " ++ e⟩, m, false⟩ := by
  unfold request_downloads
  rw [he]

theorem request_downloads_map_of_accept {data : Payload} {t : Int} {m m' : SubMap}
    {mail : Option String}
    (hdup : is_duplicate_submission data t m = Except.ok (false, m')) :
    (request_downloads data t m mail).map = m' := by
  unfold request_downloads
  rw [hdup]
  repeat' split
  all_goals simp_all

theorem request_downloads_status_ne_429_of_accept {data : Payload} {t : Int} {m m' : SubMap}
    {mail : Option String}
    (hdup : is_duplicate_submission data t m = Except.ok (false, m')) :
    (request_downloads data t m mail).resp.status ≠ 429 := by
  unfold request_downloads
  rw [hdup]
  repeat' split
  all_goals simp_all

theorem validationOk_true_of_conds {data : Payload} {u : String}
    (hstrip : pyStrip (dictGetD data "email" (PyVal.str "")) = Except.ok u)
    (h1 : (decide (u = "") || !is_valid_email u) = false)
    (h2 : (missingFields data).isEmpty = true)
    (h3 : selectedPdfsOk data = true) :
    validationOk data = true := by
  unfold validationOk emailCheckOk
  rw [hstrip]
  simp_all

theorem request_downloads_accept_eval {data : Payload} {t : Int} {m m' : SubMap}
    {mail : Option String}
    (hdup : is_duplicate_submission data t m = Except.ok (false, m'))
    (hval : validationOk data = true) :
    request_downloads data t m mail =
      ⟨(match mail with
        | none =>
            ⟨200, true, "Thank you! Your request has been received and will be processed shortly."⟩
        | some err => ⟨500, false, "Failed to process your request: " ++ err⟩),
        m', true⟩ := by
  have hsplit := hval
  unfold validationOk at hsplit
  rw [Bool.and_eq_true, Bool.and_eq_true] at hsplit
  obtain ⟨⟨h1, h2⟩, h3⟩ := hsplit
  unfold emailCheckOk at h1
  cases hstrip : pyStrip (dictGetD data "email" (PyVal.str "")) with
  | error e => rw [hstrip] at h1; exact absurd h1 (by simp)
  | ok u =>
    rw [hstrip] at h1
    unfold request_downloads
    rw [hdup, hstrip]
    simp at h1
    simp [h1, h2, h3]
    cases mail <;> rfl

theorem request_downloads_mailCalled_of_accept {data : Payload} {t : Int} {m m' : SubMap}
    {mail : Option String}
    (hdup : is_duplicate_submission data t m = Except.ok (false, m')) :
    (request_downloads data t m mail).mailCalled = validationOk data := by
  unfold request_downloads
  rw [hdup]
  repeat' split
  all_goals simp_all [validationOk, emailCheckOk]
  rename_i hcond
  intro h1 h2 h3
  rcases hcond with hc | hc
  · exact absurd hc h1
  · rw [hc] at h2
    exact absurd h2 (by simp)

theorem request_downloads_shape (data : Payload) (t : Int) (m : SubMap) (mail : Option String) :
    ((request_downloads data t m mail).resp.success = true ↔
      (request_downloads data t m mail).resp.status = 200) ∧
    ((request_downloads data t m mail).resp.status = 200 ∨
     (request_downloads data t m mail).resp.status = 400 ∨
     (request_downloads data t m mail).resp.status = 429 ∨
     (request_downloads data t m mail).resp.status = 500) := by
  unfold request_downloads
  repeat' split
  all_goals simp

/-! ## Claim theorems -/

/-- C10: when the dedup check rejects a submission as a duplicate (returns
true), the dedup map is left completely unchanged — the rejected submission's
timestamp is not refreshed and no stale entries are pruned on that path. -/
theorem C10_dup_rejection_map_unchanged (data : Payload) (t : Int) (m m' : SubMap)
    (h : is_duplicate_submission data t m = Except.ok (true, m')) : m' = m :=
  is_dup_true_inv h

/-- Witness for C10: a concrete duplicate submission 10 s after the recorded
acceptance leaves the one-entry map as it was. -/
theorem C10_dup_rejection_map_unchanged_witness :
    ([("a@b.com_x_1", (0 : Int))] : SubMap) = [("a@b.com_x_1", 0)] :=
  C10_dup_rejection_map_unchanged sampleDownload 10
    [("a@b.com_x_1", 0)] [("a@b.com_x_1", 0)] (by rfl)

/-- C6: whenever the dedup check accepts a submission at time `t`, every entry
whose age exceeds the cooldown window is deleted during that invocation, so
the resulting map holds no entry older than the window. -/
theorem C6_accept_prunes_stale_entries (data : Payload) (t : Int) (m m' : SubMap)
    (h : is_duplicate_submission data t m = Except.ok (false, m')) :
    ∀ kv ∈ m', t - kv.2 ≤ SUBMISSION_COOLDOWN := by
  obtain ⟨k, hk, rfl⟩ := is_dup_false_inv h
  intro kv hmem
  rcases mem_mapSet hmem with rfl | hin
  · simp [SUBMISSION_COOLDOWN]
  · have h2 := (List.mem_filter.mp hin).2
    simp [SUBMISSION_COOLDOWN] at h2 ⊢
    omega

/-- Witness for C6: accepting over a map holding a 100-second-old entry prunes
it; the surviving (new) entry is within the window. -/
theorem C6_accept_prunes_stale_entries_witness :
    (0 : Int) - 0 ≤ SUBMISSION_COOLDOWN :=
  C6_accept_prunes_stale_entries sampleDownload 0 [("stale", -100)]
    [("a@b.com_x_1", 0)] (by rfl) ("a@b.com_x_1", 0) (by simp)

/-- C5: `is_valid_email s` is true iff `s` is non-empty, contains `@`, and the
substring after the last `@` contains `.`; in particular `"a@b.c"` passes
while `"abc"` and `"a@b"` fail. -/
theorem C5_is_valid_email_iff :
    (∀ s : String, is_valid_email s = true ↔
      (s ≠ "" ∧ strContains s '@' = true ∧
        strContains (pyLast (pySplitOn s '@')) '.' = true)) ∧
    is_valid_email "a@b.c" = true ∧ is_valid_email "abc" = false ∧
    is_valid_email "a@b" = false := by
  refine ⟨fun s => ?_, by decide, by decide, by decide⟩
  unfold is_valid_email
  by_cases h1 : s = "" <;> by_cases h2 : strContains s '@' = true <;>
    by_cases h3 : strContains (pyLast (pySplitOn s '@')) '.' = true <;>
      simp [h1, h2, h3]

/-- Witness for C5: the characterization applied at a concrete address. -/
theorem C5_is_valid_email_iff_witness : is_valid_email "x@y.z" = true :=
  (C5_is_valid_email_iff.1 "x@y.z").mpr ⟨by decide, by decide, by decide⟩

/-- C1 counterexample: the payload `{email: "a@b.c"}` is rejected by
validation (status 400, missing required fields), yet a dedup-map entry for
its key is created — the claim that no entry is created for a submission
rejected by validation is false. -/
theorem C1_counterexample :
    (request_downloads [("email", PyVal.str "a@b.c")] 0 [] none).resp.status = 400 ∧
    (request_downloads [("email", PyVal.str "a@b.c")] 0 [] none).map = [("a@b.c__0", 0)] := by
  decide

/-- C1 (amended): a dedup-map entry for the composite key is created or
overwritten (with the submission time) on every submission that passes the
duplicate check — including submissions later rejected by validation — and
the map is unchanged exactly when the submission is rejected as a duplicate. -/
theorem C1_entry_written_iff_not_duplicate (data : Payload) (t : Int)
    (m : SubMap) (mail : Option String) (k : String)
    (hk : create_submission_key data = Except.ok k) :
    ((request_downloads data t m mail).resp.status = 429 →
      (request_downloads data t m mail).map = m) ∧
    ((request_downloads data t m mail).resp.status ≠ 429 →
      mapLookup (request_downloads data t m mail).map k = some t) := by
  rcases hdup : is_duplicate_submission data t m with e | ⟨b, m'⟩
  · rw [is_dup_eq_of_key hk] at hdup
    split at hdup <;> simp_all
  · cases b with
    | true =>
      constructor
      · intro _
        rw [request_downloads_eq_of_dup hdup]
        exact is_dup_true_inv hdup
      · intro hne
        exact absurd (by rw [request_downloads_eq_of_dup hdup]) hne
    | false =>
      constructor
      · intro h429
        exact absurd h429 (request_downloads_status_ne_429_of_accept hdup)
      · intro _
        obtain ⟨k', hk', hm'⟩ := is_dup_false_inv hdup
        rw [hk] at hk'
        obtain rfl : k = k' := Except.ok.inj hk'
        rw [request_downloads_map_of_accept hdup, hm']
        exact mapLookup_mapSet_self _ _ _

/-- Witness for the amended C1: the first accepted submission stores its
timestamp under the composite key. -/
theorem C1_entry_written_iff_not_duplicate_witness :
    mapLookup (request_downloads sampleDownload 0 [] none).map "a@b.com_x_1" = some 0 :=
  (C1_entry_written_iff_not_duplicate sampleDownload 0 [] none
    "a@b.com_x_1" (by rfl)).2 (by decide)

/-- C2: a payload POSTed a second time within 30 seconds of a first
submission carrying the same composite key — where the first was not itself
rejected as a duplicate — receives status 429 with success false. -/
theorem C2_second_within_cooldown_gets_429 (p1 p2 : Payload) (t1 t2 : Int)
    (m : SubMap) (mail1 mail2 : Option String) (k : String)
    (hk1 : create_submission_key p1 = Except.ok k)
    (hk2 : create_submission_key p2 = Except.ok k)
    (h30 : t2 - t1 < 30)
    (hfirst : (request_downloads p1 t1 m mail1).resp.status ≠ 429) :
    (request_downloads p2 t2 (request_downloads p1 t1 m mail1).map mail2).resp.status = 429 ∧
    (request_downloads p2 t2 (request_downloads p1 t1 m mail1).map mail2).resp.success
      = false := by
  rcases hdup : is_duplicate_submission p1 t1 m with e | ⟨b, m'⟩
  · rw [is_dup_eq_of_key hk1] at hdup
    split at hdup <;> simp_all
  · cases b with
    | true => exact absurd (by rw [request_downloads_eq_of_dup hdup]) hfirst
    | false =>
      have hmap := @request_downloads_map_of_accept p1 t1 m m' mail1 hdup
      obtain ⟨k', hk', hm'⟩ := is_dup_false_inv hdup
      rw [hk1] at hk'
      obtain rfl : k = k' := Except.ok.inj hk'
      have hlook : mapLookup (request_downloads p1 t1 m mail1).map k = some t1 := by
        rw [hmap, hm']
        exact mapLookup_mapSet_self _ _ _
      have hdup2 := @is_dup_of_recent p2 t2
        ((request_downloads p1 t1 m mail1).map) _ _ hk2 hlook
        (by simp only [SUBMISSION_COOLDOWN]; omega)
      refine ⟨?_, ?_⟩ <;> rw [request_downloads_eq_of_dup hdup2]

/-- Witness for C2: the spec's own scenario — identical payload at t=0 and
t=10 over an empty map; the repeat gets 429 and success false. -/
theorem C2_second_within_cooldown_gets_429_witness :
    (request_downloads sampleDownload 10
      (request_downloads sampleDownload 0 [] none).map none).resp.status = 429 ∧
    (request_downloads sampleDownload 10
      (request_downloads sampleDownload 0 [] none).map none).resp.success = false :=
  C2_second_within_cooldown_gets_429 sampleDownload sampleDownload 0 10 [] none none
    "a@b.com_x_1" (by rfl) (by rfl) (by decide) (by decide)

/-- C7: two submissions with the same composite key more than 30 seconds
apart, both passing validation, with mail transport succeeding, both succeed
with status 200 — the second is not rejected as a duplicate (given the first
was not itself rejected as a duplicate). -/
theorem C7_resubmission_after_cooldown_succeeds (p1 p2 : Payload) (t1 t2 : Int)
    (m : SubMap) (k : String)
    (hk1 : create_submission_key p1 = Except.ok k)
    (hk2 : create_submission_key p2 = Except.ok k)
    (hgap : t2 - t1 > 30)
    (hval1 : validationOk p1 = true) (hval2 : validationOk p2 = true)
    (hfirst : (request_downloads p1 t1 m none).resp.status ≠ 429) :
    (request_downloads p1 t1 m none).resp.status = 200 ∧
    (request_downloads p1 t1 m none).resp.success = true ∧
    (request_downloads p2 t2 (request_downloads p1 t1 m none).map none).resp.status = 200 ∧
    (request_downloads p2 t2 (request_downloads p1 t1 m none).map none).resp.success
      = true := by
  rcases hdup : is_duplicate_submission p1 t1 m with e | ⟨b, m'⟩
  · rw [is_dup_eq_of_key hk1] at hdup
    split at hdup <;> simp_all
  · cases b with
    | true => exact absurd (by rw [request_downloads_eq_of_dup hdup]) hfirst
    | false =>
      have heval1 := @request_downloads_accept_eval p1 t1 m m' none hdup hval1
      have hmap := @request_downloads_map_of_accept p1 t1 m m' none hdup
      obtain ⟨k', hk', hm'⟩ := is_dup_false_inv hdup
      rw [hk1] at hk'
      obtain rfl : k = k' := Except.ok.inj hk'
      have hlook : mapLookup (request_downloads p1 t1 m none).map k = some t1 := by
        rw [hmap, hm']
        exact mapLookup_mapSet_self _ _ _
      have hdup2 := @is_dup_of_old p2 t2
        ((request_downloads p1 t1 m none).map) _ _ hk2 hlook
        (by simp only [SUBMISSION_COOLDOWN]; omega)
      have heval2 := @request_downloads_accept_eval p2 t2 _ _ none hdup2 hval2
      rw [heval2, heval1]
      exact ⟨rfl, rfl, rfl, rfl⟩

/-- Witness for C7: the same valid payload at t=0 and t=40 over an empty map;
both responses are 200 with success true. -/
theorem C7_resubmission_after_cooldown_succeeds_witness :
    (request_downloads sampleDownload 0 [] none).resp.status = 200 ∧
    (request_downloads sampleDownload 0 [] none).resp.success = true ∧
    (request_downloads sampleDownload 40
      (request_downloads sampleDownload 0 [] none).map none).resp.status = 200 ∧
    (request_downloads sampleDownload 40
      (request_downloads sampleDownload 0 [] none).map none).resp.success = true :=
  C7_resubmission_after_cooldown_succeeds sampleDownload sampleDownload 0 40 []
    "a@b.com_x_1" (by rfl) (by rfl) (by decide) (by rfl) (by rfl) (by decide)

/-- C3 counterexample: the payload `{category: "x"}` fails required-field
validation, yet with its key recently in the map the response is 429 — the
duplicate check ran and decided the outcome without the required-field check,
so validation is not performed before the dedup map is consulted. -/
theorem C3_counterexample :
    (request_downloads [("category", PyVal.str "x")] 10 [("_x_0", 0)] none).resp.status
        = 429 ∧
    missingFields [("category", PyVal.str "x")] ≠ [] := by
  decide

/-- C3 (amended): the dedup check is consulted first — a duplicate is
answered 429 with no mail sent regardless of validation — and the mail
collaborator is invoked exactly when the duplicate check accepts and all
validation passes. -/
theorem C3_dedup_first_mail_iff_both_pass (data : Payload) (t : Int) (m : SubMap)
    (mail : Option String) :
    (∀ m', is_duplicate_submission data t m = Except.ok (true, m') →
      (request_downloads data t m mail).resp.status = 429 ∧
      (request_downloads data t m mail).mailCalled = false) ∧
    ((request_downloads data t m mail).mailCalled = true ↔
      (∃ m', is_duplicate_submission data t m = Except.ok (false, m')) ∧
        validationOk data = true) := by
  constructor
  · intro m' hdup
    rw [request_downloads_eq_of_dup hdup]
    exact ⟨rfl, rfl⟩
  · constructor
    · intro hmc
      rcases hdup : is_duplicate_submission data t m with e | ⟨b, m'⟩
      · rw [request_downloads_eq_of_error hdup] at hmc
        simp at hmc
      · cases b with
        | true =>
          rw [request_downloads_eq_of_dup hdup] at hmc
          simp at hmc
        | false =>
          have hmc' := @request_downloads_mailCalled_of_accept _ _ _ _ mail hdup
          rw [hmc] at hmc'
          exact ⟨⟨m', rfl⟩, hmc'.symm⟩
    · rintro ⟨⟨m', hdup⟩, hval⟩
      rw [request_downloads_accept_eval hdup hval]

/-- Witness for C3: a fresh valid payload with failing mail still has the mail
collaborator invoked (dedup passed, validation passed). -/
theorem C3_dedup_first_mail_iff_both_pass_witness :
    (request_downloads sampleDownload 0 [] (some "boom")).mailCalled = true :=
  (C3_dedup_first_mail_iff_both_pass sampleDownload 0 [] (some "boom")).2.mpr
    ⟨⟨[("a@b.com_x_1", 0)], by rfl⟩, by rfl⟩

/-- C4 counterexample: a downloads payload missing two required fields
(firstName and phone) is answered with a message naming both fields, not a
fail-fast message naming only the first — so `/api/downloads/request` does
not fail fast on the first missing field as the claim states. -/
theorem C4_counterexample :
    (request_downloads [("email", PyVal.str "a@b.c"), ("lastName", PyVal.str "L"),
        ("selectedPdfs", PyVal.list ["p"]), ("category", PyVal.str "c")]
        0 [] none).resp.status = 400 ∧
    (request_downloads [("email", PyVal.str "a@b.c"), ("lastName", PyVal.str "L"),
        ("selectedPdfs", PyVal.list ["p"]), ("category", PyVal.str "c")]
        0 [] none).resp.message = "Missing required fields: firstName, phone" ∧
    (request_downloads [("email", PyVal.str "a@b.c"), ("lastName", PyVal.str "L"),
        ("selectedPdfs", PyVal.list ["p"]), ("category", PyVal.str "c")]
        0 [] none).resp.message ≠ "Firstname is required." := by
  decide

/-- C4 (amended): `/api/contact` and `/api/apply` fail fast on the first
missing/empty required field with 400 and a message naming that field;
`/api/downloads/request` instead (after the duplicate and email checks)
collects all missing required fields and returns 400 with a message listing
them all. -/
theorem C4_fail_fast_contact_apply_collect_downloads :
    (∀ data mail f,
      required_fields_contact.find? (fun g => !fieldTruthy data g) = some f →
      (contact data mail).1 = ⟨400, false, pyCapitalize f ++ " is required."⟩) ∧
    (∀ req mail f, hasResumeKey req = true →
      required_fields_apply.find? (fun g => (List.lookup g req.form).getD "" = "") = some f →
      apply_job req mail = ⟨400, false, pyCapitalize f ++ " is required."⟩) ∧
    (∀ data t m mail m', is_duplicate_submission data t m = Except.ok (false, m') →
      emailCheckOk data = true → (missingFields data).isEmpty = false →
      request_downloads data t m mail =
        ⟨⟨400, false,
          "Missing required fields: " ++ String.intercalate ", " (missingFields data)⟩,
          m', false⟩) := by
  refine ⟨?_, ?_, ?_⟩
  · intro data mail f hfind
    unfold contact
    rw [hfind]
  · intro req mail f hres hfind
    unfold apply_job
    rw [hres, hfind]
    rfl
  · intro data t m mail m' hdup hemail hmiss
    unfold emailCheckOk at hemail
    cases hstrip : pyStrip (dictGetD data "email" (PyVal.str "")) with
    | error e =>
      rw [hstrip] at hemail
      exact absurd hemail (by simp)
    | ok u =>
      rw [hstrip] at hemail
      simp at hemail
      unfold request_downloads
      rw [hdup, hstrip]
      simp [hemail.1, hemail.2, hmiss]

/-- Witness for the amended C4: contact fails fast naming "Name"; apply fails
fast naming "Firstname"; downloads lists both missing fields. -/
theorem C4_fail_fast_contact_apply_collect_downloads_witness :
    (contact [("email", PyVal.str "a@b.com"), ("message", PyVal.str "hi")] none).1
        = ⟨400, false, "Name is required."⟩ ∧
    apply_job ⟨[("resume", "")], none⟩ none = ⟨400, false, "Firstname is required."⟩ ∧
    request_downloads [("email", PyVal.str "a@b.c"), ("lastName", PyVal.str "L"),
        ("selectedPdfs", PyVal.list ["p"]), ("category", PyVal.str "c")] 0 [] none =
      ⟨⟨400, false, "Missing required fields: firstName, phone"⟩, [("a@b.c_c_1", 0)], false⟩ :=
  ⟨C4_fail_fast_contact_apply_collect_downloads.1
      [("email", PyVal.str "a@b.com"), ("message", PyVal.str "hi")] none "name" (by rfl),
   C4_fail_fast_contact_apply_collect_downloads.2.1
      ⟨[("resume", "")], none⟩ none "firstName" (by rfl) (by rfl),
   C4_fail_fast_contact_apply_collect_downloads.2.2
      [("email", PyVal.str "a@b.c"), ("lastName", PyVal.str "L"),
       ("selectedPdfs", PyVal.list ["p"]), ("category", PyVal.str "c")] 0 [] none
      [("a@b.c_c_1", 0)] (by rfl) (by rfl) (by rfl)⟩

/-- C8 counterexample: a multipart request supplying all required fields but
no resume field at all (neither in the files nor the form) is rejected with
400 "No resume file provided" — contrary to the claim that such a request is
not rejected for lacking a resume. -/
theorem C8_counterexample :
    apply_job ⟨[("firstName", "A"), ("lastName", "B"), ("email", "a@b.c"),
        ("phone", "1"), ("jobTitle", "Dev")], none⟩ none =
      ⟨400, false, "No resume file provided"⟩ := by
  decide

/-- C8 (amended): the `resume` key must be present in the files or the form
(otherwise 400 "No resume file provided"); given the required fields and the
key are present, a request with no uploaded file or an empty filename is not
rejected for lacking a resume (the outcome is decided by the mail
collaborator), and an uploaded resume with a non-empty filename whose
extension is not pdf/doc/docx yields 400. -/
theorem C8_resume_key_required_extension_checked :
    (∀ req mail, hasResumeKey req = false →
      apply_job req mail = ⟨400, false, "No resume file provided"⟩) ∧
    (∀ req mail, hasResumeKey req = true →
      required_fields_apply.find? (fun g => (List.lookup g req.form).getD "" = "") = none →
      (req.filesResume = none ∨ req.filesResume = some "") →
      apply_job req mail = (match mail with
        | none =>
            ⟨200, true,
              "Thank you for your application! We will review your details and get back to you soon."⟩
        | some e => ⟨500, false, "Failed to submit application: " ++ e⟩)) ∧
    (∀ req mail filename, hasResumeKey req = true →
      required_fields_apply.find? (fun g => (List.lookup g req.form).getD "" = "") = none →
      req.filesResume = some filename → filename ≠ "" → resumeExtensionOk filename = false →
      apply_job req mail = ⟨400, false, "Invalid file type. Allowed types: PDF, DOC, DOCX"⟩) := by
  refine ⟨?_, ?_, ?_⟩
  · intro req mail hres
    unfold apply_job
    rw [hres]
    rfl
  · intro req mail hres hfind hfile
    unfold apply_job
    rw [hres, hfind]
    rcases hfile with hf | hf <;> rw [hf] <;> rfl
  · intro req mail filename hres hfind hfile hne hext
    unfold apply_job
    rw [hres, hfind, hfile]
    simp [hne, hext]

/-- Witness for the amended C8: with required fields present, an empty resume
form value is accepted (200 on mail success), and a `.exe` resume is 400. -/
theorem C8_resume_key_required_extension_checked_witness :
    apply_job ⟨[("firstName", "A"), ("lastName", "B"), ("email", "a@b.c"),
        ("phone", "1"), ("jobTitle", "Dev"), ("resume", "")], none⟩ none =
      ⟨200, true,
        "Thank you for your application! We will review your details and get back to you soon."⟩ ∧
    apply_job ⟨[("firstName", "A"), ("lastName", "B"), ("email", "a@b.c"),
        ("phone", "1"), ("jobTitle", "Dev")], some "cv.exe"⟩ none =
      ⟨400, false, "Invalid file type. Allowed types: PDF, DOC, DOCX"⟩ :=
  ⟨C8_resume_key_required_extension_checked.2.1
      ⟨[("firstName", "A"), ("lastName", "B"), ("email", "a@b.c"),
        ("phone", "1"), ("jobTitle", "Dev"), ("resume", "")], none⟩ none
      (by rfl) (by rfl) (Or.inl rfl),
   C8_resume_key_required_extension_checked.2.2
      ⟨[("firstName", "A"), ("lastName", "B"), ("email", "a@b.c"),
        ("phone", "1"), ("jobTitle", "Dev")], some "cv.exe"⟩ none "cv.exe"
      (by rfl) (by rfl) rfl (by decide) (by rfl)⟩

/-- C9: failures are reported as 500 with the raw underlying error text
echoed verbatim into the message (mail failure on downloads and contact, and
the caught-exception path), and every response of the downloads, contact and
apply handlers has the uniform shape: success is true exactly for status
200, and the status is always one of 200/400/429/500. -/
theorem C9_errors_uniform_shape :
    (∀ data t m m' e, is_duplicate_submission data t m = Except.ok (false, m') →
      validationOk data = true →
      request_downloads data t m (some e) =
        ⟨⟨500, false, "Failed to process your request: " ++ e⟩, m', true⟩) ∧
    (∀ data t m mail e, create_submission_key data = Except.error e →
      request_downloads data t m mail =
        ⟨⟨500, false, "An unexpected error occurred: " ++ e⟩, m, false⟩) ∧
    (∀ data e, required_fields_contact.find? (fun f => !fieldTruthy data f) = none →
      contact data (some e) = (⟨500, false, "Failed to send message: " ++ e⟩, true)) ∧
    (∀ data t m mail,
      ((request_downloads data t m mail).resp.success = true ↔
        (request_downloads data t m mail).resp.status = 200) ∧
      ((request_downloads data t m mail).resp.status = 200 ∨
       (request_downloads data t m mail).resp.status = 400 ∨
       (request_downloads data t m mail).resp.status = 429 ∨
       (request_downloads data t m mail).resp.status = 500)) ∧
    (∀ data mail,
      ((contact data mail).1.success = true ↔ (contact data mail).1.status = 200) ∧
      ((contact data mail).1.status = 200 ∨ (contact data mail).1.status = 400 ∨
       (contact data mail).1.status = 500)) ∧
    (∀ req mail,
      ((apply_job req mail).success = true ↔ (apply_job req mail).status = 200) ∧
      ((apply_job req mail).status = 200 ∨ (apply_job req mail).status = 400 ∨
       (apply_job req mail).status = 500)) := by
  refine ⟨?_, ?_, ?_, ?_, ?_, ?_⟩
  · intro data t m m' e hdup hval
    exact request_downloads_accept_eval hdup hval
  · intro data t m mail e hk
    exact request_downloads_eq_of_error (is_dup_eq_of_error hk)
  · intro data e hfind
    unfold contact
    rw [hfind]
  · intro data t m mail
    exact request_downloads_shape data t m mail
  · intro data mail
    unfold contact
    repeat' split
    all_goals simp
  · intro req mail
    unfold apply_job
    repeat' split
    all_goals simp

/-- Witness for C9: a concrete SMTP failure is echoed back verbatim in a 500
response. -/
theorem C9_errors_uniform_shape_witness :
    request_downloads sampleDownload 0 [] (some "SMTPAuthenticationError (535)") =
      ⟨⟨500, false, "Failed to process your request: SMTPAuthenticationError (535)"⟩,
        [("a@b.com_x_1", 0)], true⟩ :=
  C9_errors_uniform_shape.1 sampleDownload 0 [] [("a@b.com_x_1", 0)]
    "SMTPAuthenticationError (535)" (by rfl) (by rfl)
